import Mathlib

/-!
Verification of the FrostBit frost-risk computation pipeline.

Shallow embedding of the core functions of `server/app/mathModel.py` and the
risk classification of `server/app/main.py`.  Exact rational/real arithmetic
stands in for Python floats; Python exceptions are modelled with `Except`
where a claim is about raising behaviour.
-/

namespace FrostBit

/-! ## Stage damage model (mathModel.py, get_damage_parameters / damage_curve) -/

/-- Python error values that the embedded functions can signal. -/
inductive PyErr where
  | zeroDivision
  | valueError
  | overflowError
  /-- Python does not raise here: a negative float base with fractional
  exponent yields a complex number, i.e. a non-real result. -/
  | complexResult
deriving DecidableEq, Repr

/-- Python's `str.lower()` on the ASCII stage names used here: map
`Char.toLower` over the characters (written on the character list so that
proofs can evaluate it). -/
def pyLower (s : String) : String :=
  String.mk (s.data.map Char.toLower)

/-- Embedding of `get_damage_parameters` (mathModel.py lines 101-118):
lowercase the stage name, then an if/elif chain over the five configured
stage names; any other name raises `ValueError`. -/
def get_damage_parameters (stage : String) : Except String (ℚ × ℚ) :=
  if pyLower stage = "pinkbud" then Except.ok (10.0, 1.5)
  else if pyLower stage = "fullbloom" then Except.ok (9.0, 1.4)
  else if pyLower stage = "petalfall" then Except.ok (8.0, 1.3)
  else if pyLower stage = "fruitset" then Except.ok (7.0, 1.2)
  else if pyLower stage = "smallnut" then Except.ok (6.0, 1.1)
  else Except.error ("Invalid phenological stage: " ++ stage)

/-- Embedding of `damage_curve` (mathModel.py lines 121-128):
`z = a + b*temp; p = 1/(1+exp(-z))`, with the stage's parameters obtained
from `get_damage_parameters` (an unknown stage propagates the error). -/
noncomputable def damage_curve (temp_c : ℝ) (stage : String) : Except String ℝ := do
  let ab ← get_damage_parameters stage
  let z : ℝ := (ab.1 : ℝ) + (ab.2 : ℝ) * temp_c
  pure (1 / (1 + Real.exp (-z)))

/-- Embedding of `estimate_damage_at_temperature` (mathModel.py lines 131-135):
a direct wrapper around `damage_curve`. -/
noncomputable def estimate_damage_at_temperature (temperature_c : ℝ) (stage : String) :
    Except String ℝ :=
  damage_curve temperature_c stage

/-- The five configured stage names, lowercase, in source order. -/
def stageNames : List String :=
  ["pinkbud", "fullbloom", "petalfall", "fruitset", "smallnut"]

/-- The fixed per-stage logistic parameter table as the spec states it
(section 4.3): stage name to `(a, b)`. -/
def damageTable : List (String × (ℚ × ℚ)) :=
  [("pinkbud", (10.0, 1.5)), ("fullbloom", (9.0, 1.4)), ("petalfall", (8.0, 1.3)),
   ("fruitset", (7.0, 1.2)), ("smallnut", (6.0, 1.1))]

/-- Spec-side reformulation of the damage parameter lookup, following the
amended claim wording: look the lowercased stage name up in the fixed
five-entry table; error exactly when it is absent. -/
def get_damage_parameters_spec (stage : String) : Except String (ℚ × ℚ) :=
  match damageTable.find? (fun e => pyLower stage = e.1) with
  | some e => Except.ok e.2
  | none => Except.error ("Invalid phenological stage: " ++ stage)

/-- Embedding of the risk classification of `main.py` lines 147-153:
thresholds 0.3 and 0.6 on the overall maximum damage probability. -/
def risk_level_of (max_damage_overall : ℚ) : String :=
  if max_damage_overall < 0.3 then "low"
  else if max_damage_overall < 0.6 then "moderate"
  else "high"

/-! ## Physical quantity derivation (mathModel.py lines 47-98)

Two parallel embeddings are given.  The plain versions use Lean's total real
functions and model the exact-real value of each formula; the `_chk`
versions additionally model the points where the Python runtime signals
(division by zero, square root or logarithm out of domain, complex result
of a fractional power of a negative float). -/

/-- Checked real division: Python raises `ZeroDivisionError` when the
denominator is zero. -/
noncomputable def pyDiv (x y : ℝ) : Except PyErr ℝ :=
  if y = 0 then Except.error PyErr.zeroDivision else Except.ok (x / y)

/-- Checked square root: `math.sqrt` raises `ValueError` on negative input. -/
noncomputable def pySqrt (x : ℝ) : Except PyErr ℝ :=
  if x < 0 then Except.error PyErr.valueError else Except.ok (Real.sqrt x)

/-- Checked logarithm: `math.log` raises `ValueError` on non-positive input. -/
noncomputable def pyLog (x : ℝ) : Except PyErr ℝ :=
  if x ≤ 0 then Except.error PyErr.valueError else Except.ok (Real.log x)

/-- Checked power for a real exponent: a negative base with a fractional
exponent yields a complex (non-real) result in Python, modelled as the
`complexResult` signal. -/
noncomputable def pyPow (x y : ℝ) : Except PyErr ℝ :=
  if x < 0 then Except.error PyErr.complexResult else Except.ok (x ^ y)

/-- Exact-real value of `wet_bulb_temperature` (mathModel.py lines 47-58),
the Stull-style arctangent approximation. -/
noncomputable def wet_bulb_temperature (temperature_c relative_humidity : ℝ) : ℝ :=
  temperature_c * Real.arctan (0.151977 * Real.sqrt (relative_humidity + 8.313659))
    + Real.arctan (temperature_c + relative_humidity)
    - Real.arctan (relative_humidity - 1.676331)
    + 0.00391838 * relative_humidity ^ (1.5 : ℝ) * Real.arctan (0.023101 * relative_humidity)
    - 4.686035

/-- `wet_bulb_temperature` with the Python domain checks: the square root of
`relative_humidity + 8.313659` and the power `relative_humidity ** 1.5` are
the two subterms that can leave the reals. -/
noncomputable def wet_bulb_temperature_chk (temperature_c relative_humidity : ℝ) :
    Except PyErr ℝ := do
  let s ← pySqrt (relative_humidity + 8.313659)
  let pw ← pyPow relative_humidity 1.5
  pure (temperature_c * Real.arctan (0.151977 * s)
    + Real.arctan (temperature_c + relative_humidity)
    - Real.arctan (relative_humidity - 1.676331)
    + 0.00391838 * pw * Real.arctan (0.023101 * relative_humidity)
    - 4.686035)

/-- Exact-real value of `blossom_temp` (mathModel.py lines 61-71). -/
noncomputable def blossom_temp (temperature_c relative_humidity delta_orchard_c : ℝ) : ℝ :=
  let wb := wet_bulb_temperature temperature_c relative_humidity
  temperature_c - delta_orchard_c - (temperature_c - wb)

/-- `blossom_temp` with the Python domain checks, inherited from
`wet_bulb_temperature_chk`. -/
noncomputable def blossom_temp_chk (temperature_c relative_humidity delta_orchard_c : ℝ) :
    Except PyErr ℝ := do
  let wb ← wet_bulb_temperature_chk temperature_c relative_humidity
  pure (temperature_c - delta_orchard_c - (temperature_c - wb))

/-- Exact-real value of `dew_point_temperature` (mathModel.py lines 87-98),
the Magnus formula with the humidity-nonpositive fallback. -/
noncomputable def dew_point_temperature (temperature_c relative_humidity : ℝ) : ℝ :=
  if relative_humidity ≤ 0 then temperature_c
  else
    let gamma := 17.27 * temperature_c / (237.7 + temperature_c)
      + Real.log (relative_humidity / 100)
    237.7 * gamma / (17.27 - gamma)

/-- `dew_point_temperature` with the Python domain checks: the two divisions
and the logarithm are the subterms that can raise. -/
noncomputable def dew_point_temperature_chk (temperature_c relative_humidity : ℝ) :
    Except PyErr ℝ :=
  if relative_humidity ≤ 0 then Except.ok temperature_c
  else do
    let q1 ← pyDiv (17.27 * temperature_c) (237.7 + temperature_c)
    let q2 ← pyDiv relative_humidity 100
    let l ← pyLog q2
    let gamma := q1 + l
    pyDiv (237.7 * gamma) (17.27 - gamma)

/-! ## CIMIS numeric field extraction (mathModel.py lines 140-158) -/

/-- Classification of the string found under the `Value` key of a CIMIS
field object, by how `float(v)` treats it: `empty` for the empty string or
JSON null (the `v in ("", None)` test), `num x` for a string parsing to the
number `x`, `bad` for a present, non-empty value on which `float` raises
`ValueError` or `TypeError`. -/
inductive CimisVal where
  | empty
  | num (x : ℚ)
  | bad
deriving DecidableEq, Repr

/-- A JSON value sitting under a field key of a CIMIS record: either not a
dict at all, or a dict with an optional `Value` entry (`none` when the dict
has no `Value` key, which `obj.get` turns into Python `None`). -/
inductive CimisObj where
  | notDict
  | dict (value : Option CimisVal)
deriving DecidableEq, Repr

/-- The named fields of a raw CIMIS record, as an association list. -/
abbrev CimisFields := List (String × CimisObj)

/-- `rec.get(key)` on the field association list. -/
def fieldGet (rec : CimisFields) (key : String) : Option CimisObj :=
  (rec.find? (fun e => e.1 = key)).map (fun e => e.2)

/-- Embedding of `_get_cimis_value` (mathModel.py lines 140-158).  For each
key in order: a missing or non-dict entry is skipped; a dict whose `Value`
is absent, null or the empty string makes the whole call return `none`
immediately; a parseable `Value` is returned; an unparseable one is skipped
and the remaining keys are tried. -/
def get_cimis_value (rec : CimisFields) : List String → Option ℚ
  | [] => none
  | key :: keys =>
    match fieldGet rec key with
    | some (CimisObj.dict v) =>
      match v with
      | none => none
      | some CimisVal.empty => none
      | some (CimisVal.num x) => some x
      | some CimisVal.bad => get_cimis_value rec keys
    | _ => get_cimis_value rec keys

/-- The parseable numeric value sitting directly under one key, if any. -/
def parsedValue (rec : CimisFields) (key : String) : Option ℚ :=
  match fieldGet rec key with
  | some (CimisObj.dict (some (CimisVal.num x))) => some x
  | _ => none

/-- The extraction behaviour as claim C1 words it: return the value of the
first listed key that is present with a non-empty, numerically parseable
`Value`; null if no listed key has one. -/
def get_cimis_value_claim (rec : CimisFields) (keys : List String) : Option ℚ :=
  match keys.find? (fun k => (parsedValue rec k).isSome) with
  | some k => parsedValue rec k
  | none => none

/-- A key is decisive when scanning stops at it: it holds a dict whose
`Value` is either parseable (the result) or empty/absent (null result). -/
def decisiveKey (rec : CimisFields) (k : String) : Bool :=
  match fieldGet rec k with
  | some (CimisObj.dict none) => true
  | some (CimisObj.dict (some CimisVal.empty)) => true
  | some (CimisObj.dict (some (CimisVal.num _))) => true
  | _ => false

/-- The extraction behaviour as the amended claim words it: scan the keys in
order for the first decisive one — skipping absent, non-dict and
unparseable-value keys — and return its parsed value if it has one, null
otherwise (in particular null at the first present-but-empty key). -/
def get_cimis_value_amended (rec : CimisFields) (keys : List String) : Option ℚ :=
  match keys.find? (decisiveKey rec) with
  | some k => parsedValue rec k
  | none => none

/-! ## Datetime model

The normalizer builds strings of the shape `YYYY-MM-DD HH:MM` and hands them
to the Python standard library.  `PyDateTime` and `fromisoformat` are
modelled from the spec: the parser itself is standard-library code outside
this repository; the spec (section 4.1) only requires that the concatenated
date and zero-padded hour form a parseable date-time string and that records
whose string does not parse are dropped. -/

structure PyDateTime where
  year : Nat
  month : Nat
  day : Nat
  hour : Nat
  minute : Nat
  second : Nat
deriving DecidableEq, Repr

/-- Gregorian leap year rule. -/
def isLeapYear (y : Nat) : Bool :=
  (y % 4 == 0 && y % 100 != 0) || (y % 400 == 0)

/-- Days in a month of the Gregorian calendar (0 for an invalid month). -/
def daysInMonth (y m : Nat) : Nat :=
  if m = 1 ∨ m = 3 ∨ m = 5 ∨ m = 7 ∨ m = 8 ∨ m = 10 ∨ m = 12 then 31
  else if m = 4 ∨ m = 6 ∨ m = 9 ∨ m = 11 then 30
  else if m = 2 then (if isLeapYear y then 29 else 28)
  else 0

/-- Split a character list on a separator character (the behaviour of
`str.split` with a one-character separator). -/
def splitOnChar (c : Char) : List Char → List (List Char)
  | [] => [[]]
  | x :: xs =>
    if x = c then [] :: splitOnChar c xs
    else match splitOnChar c xs with
      | [] => [[x]]
      | g :: gs => (x :: g) :: gs

/-- A group of exactly `n` decimal digits, as a number. -/
def parseDigits (n : Nat) (cs : List Char) : Option Nat :=
  if cs.length = n ∧ cs.all Char.isDigit
  then some (cs.foldl (fun acc c => acc * 10 + (c.toNat - '0'.toNat)) 0)
  else none

/-- Parse `YYYY-MM-DD` with calendar validation. -/
def parseDatePart (cs : List Char) : Option (Nat × Nat × Nat) :=
  match splitOnChar '-' cs with
  | [ys, ms, ds] =>
    match parseDigits 4 ys, parseDigits 2 ms, parseDigits 2 ds with
    | some y, some m, some d =>
      if 1 ≤ m ∧ m ≤ 12 ∧ 1 ≤ d ∧ d ≤ daysInMonth y m ∧ 1 ≤ y then some (y, m, d)
      else none
    | _, _, _ => none
  | _ => none

/-- Parse `HH:MM` or `HH:MM:SS` with range validation. -/
def parseTimePart (cs : List Char) : Option (Nat × Nat × Nat) :=
  match splitOnChar ':' cs with
  | [hs, ms] =>
    match parseDigits 2 hs, parseDigits 2 ms with
    | some h, some m => if h ≤ 23 ∧ m ≤ 59 then some (h, m, 0) else none
    | _, _ => none
  | [hs, ms, ss] =>
    match parseDigits 2 hs, parseDigits 2 ms, parseDigits 2 ss with
    | some h, some m, some sec =>
      if h ≤ 23 ∧ m ≤ 59 ∧ sec ≤ 59 then some (h, m, sec) else none
    | _, _, _ => none
  | _ => none

/-- Modelled from the spec: the standard library's `datetime.fromisoformat`
(code outside this repository) on the strings this pipeline constructs —
a `YYYY-MM-DD` date, optionally followed by a space and a `HH:MM[:SS]`
time; any other shape fails and the caller drops the record. -/
def fromisoformat (s : String) : Option PyDateTime :=
  match splitOnChar ' ' s.data with
  | [dstr] =>
    match parseDatePart dstr with
    | some (y, m, d) => some ⟨y, m, d, 0, 0, 0⟩
    | none => none
  | [dstr, tstr] =>
    match parseDatePart dstr, parseTimePart tstr with
    | some (y, m, d), some (h, mi, sec) => some ⟨y, m, d, h, mi, sec⟩
    | _, _ => none
  | _ => none

/-- Days strictly before January 1 of year `y` in the proleptic Gregorian
calendar, counting from year 1 (the standard library's `toordinal` rule). -/
def daysBeforeYear (y : Nat) : Nat :=
  let n := y - 1
  n * 365 + n / 4 - n / 100 + n / 400

/-- Days in year `y` strictly before month `m`. -/
def daysBeforeMonth (y m : Nat) : Nat :=
  (List.range (m - 1)).foldl (fun acc i => acc + daysInMonth y (i + 1)) 0

/-- Proleptic Gregorian ordinal of the date (January 1 of year 1 is day 1). -/
def PyDateTime.toOrdinal (t : PyDateTime) : Nat :=
  daysBeforeYear t.year + daysBeforeMonth t.year t.month + t.day

/-- Seconds since the calendar epoch: the quantity whose differences the
orchestrator divides by 3600 (`timedelta.total_seconds`). -/
def PyDateTime.toSeconds (t : PyDateTime) : Nat :=
  t.toOrdinal * 86400 + t.hour * 3600 + t.minute * 60 + t.second

/-! ## CIMIS JSON flattening (mathModel.py lines 161-215) -/

/-- The parts of one raw CIMIS record that `cimis_json_to_records` reads:
the `Station`, `Date` and `Hour` entries (absent keys modelled as `none`;
`Hour` is taken through `str()` by the source, modelled here as already a
string) and the named field objects consulted by `get_cimis_value`. -/
structure RawRecord where
  station : Option String
  date : Option String
  hour : Option String
  fields : CimisFields
deriving DecidableEq, Repr

/-- One provider: its `Station.StationNbr` entry, if any, and its records. -/
structure RawProvider where
  stationNbr : Option String
  records : List RawRecord
deriving DecidableEq, Repr

/-- The whole document: `raw_json["Data"]["Providers"]` (a missing `Data` or
`Providers` key yields the empty provider list, as `.get` with defaults). -/
structure RawDoc where
  providers : List RawProvider
deriving DecidableEq, Repr

/-- Python's `x or y` on optional strings: `y` when `x` is `None` or the
empty string (falsy), else `x`. -/
def pyOr (x y : Option String) : Option String :=
  match x with
  | some s => if s = "" then y else some s
  | none => y

/-- Python's `str.zfill(w)` for the unsigned strings used here: pad on the
left with zeros up to width `w`. -/
def zfill (w : Nat) (s : String) : String :=
  if s.data.length ≥ w then s
  else String.mk (List.replicate (w - s.data.length) '0') ++ s

/-- Python's `str.endswith("00")`. -/
def endsWith00 (s : String) : Bool :=
  match s.data.reverse with
  | '0' :: '0' :: _ => true
  | _ => false

/-- One flattened row, as built at mathModel.py lines 203-210. -/
structure CimisRow where
  station : Option String
  date : String
  hour : String
  timestamp : PyDateTime
  air_temp_c : Option ℚ
  rel_hum : Option ℚ
deriving DecidableEq, Repr

/-- The sort key order of mathModel.py line 214, `(station, timestamp)`
ascending.  A `none` station is placed first (Python would raise comparing
`None` with a string; no claim exercises that mix). -/
def rowLe (r1 r2 : CimisRow) : Bool :=
  match r1.station, r2.station with
  | none, none => r1.timestamp.toSeconds ≤ r2.timestamp.toSeconds
  | none, some _ => true
  | some _, none => false
  | some x, some y =>
    if x < y then true
    else if y < x then false
    else r1.timestamp.toSeconds ≤ r2.timestamp.toSeconds

/-- The per-record body of the flattening loop (mathModel.py lines 174-211):
station fallback, the date/hour guard, hour-code normalization, timestamp
parsing, and numeric field extraction; `none` when the record is dropped. -/
def recordToRow (provider : RawProvider) (rec : RawRecord) : Option CimisRow :=
  let station := pyOr rec.station provider.stationNbr
  match rec.date, rec.hour with
  | some date_str, some hour_raw_str =>
    let hour_str :=
      if hour_raw_str.data.length = 4 ∧ endsWith00 hour_raw_str
      then String.mk (hour_raw_str.data.take 2)
      else zfill 2 hour_raw_str
    match fromisoformat (date_str ++ " " ++ hour_str ++ ":00") with
    | some timestamp =>
      some { station := station, date := date_str, hour := hour_str,
             timestamp := timestamp,
             air_temp_c := get_cimis_value rec.fields ["HlyAirTmp", "hly-air-tmp"],
             rel_hum := get_cimis_value rec.fields ["HlyRelHum", "hly-rel-hum"] }
    | none => none
  | _, _ => none

/-- Embedding of `cimis_json_to_records` (mathModel.py lines 161-215):
flatten every provider's records, dropping invalid ones, then sort by
`(station, timestamp)`. -/
def cimis_json_to_records (raw_json : RawDoc) : List CimisRow :=
  let rows := raw_json.providers.flatMap
    (fun provider => provider.records.filterMap (recordToRow provider))
  List.insertionSort (fun a b => rowLe a b = true) rows

/-! ## Frost risk orchestrator (mathModel.py lines 218-315) -/

/-- LT thresholds for a single phenological stage (mathModel.py lines 15-19). -/
structure StageLT where
  lt10_c : ℚ
  lt90_c : ℚ
deriving DecidableEq, Repr

/-- The almond stage table of `ALMOND_LT_CONFIG` (mathModel.py lines 33-42),
in insertion order. -/
def ALMOND_LT_CONFIG_stages : List (String × StageLT) :=
  [("pinkbud", ⟨-3.5, -5.5⟩), ("fullbloom", ⟨-3.0, -4.5⟩), ("petalfall", ⟨-2.8, -5.0⟩),
   ("fruitset", ⟨-2.5, -4.7⟩), ("smallnut", ⟨-2.8, -4.5⟩)]

/-- Value of `estimate_damage_at_temperature` for a configured stage name.
For each of the five names the parameter lookup succeeds, so the error
branch is unreachable where this is used (an unknown name would make the
Python loop raise instead). -/
noncomputable def damageValue (t : ℝ) (stage : String) : ℝ :=
  match damage_curve t stage with
  | Except.ok p => p
  | Except.error _ => 0

/-- A Python dict keyed by the (possibly `None`) station value, as an
association list where the most recent assignment shadows older ones. -/
def dictGet {α : Type} (d : List (Option String × α)) (k : Option String) : Option α :=
  (d.find? (fun e => e.1 = k)).map (fun e => e.2)

/-- The cooling-rate computation of mathModel.py lines 274-286 for one
record: `prevTempEntry` is `prev_temp.get(station)` as stored (absent,
stored-null, or a number), `prevTimeEntry` is `prev_time.get(station)`.
When a positive elapsed time cannot be established, `dt_hours` stays at the
1.0-hour default; the rate is 0.0 only when no prior temperature exists or
the current temperature is null. -/
def coolingRateOut (prevTempEntry : Option (Option ℚ)) (prevTimeEntry : Option PyDateTime)
    (timestamp : PyDateTime) (air_temp : Option ℚ) : ℚ :=
  match prevTempEntry with
  | some (some prev) =>
    let dt_hours : ℚ :=
      match prevTimeEntry with
      | some tprev =>
        let dt := ((timestamp.toSeconds : ℚ) - (tprev.toSeconds : ℚ)) / 3600
        if 0 < dt then dt else 1
      | none => 1
    match air_temp with
    | some cur => (prev - cur) / dt_hours
    | none => 0
  | _ => 0

/-- The per-stage output entry of mathModel.py lines 296-300. -/
structure StageOut where
  lt10_c : ℚ
  lt90_c : ℚ
  damage_prob : ℝ

/-- One enriched output record (mathModel.py lines 302-312). -/
structure FrostRecordOut where
  station : Option String
  timestamp : PyDateTime
  air_temperature_c : Option ℚ
  relative_humidity : Option ℚ
  dew_point_c : Option ℝ
  wet_bulb_c : Option ℝ
  blossom_temp_c : Option ℝ
  cooling_rate_c_per_hr : ℚ
  stages : List (String × StageOut)

/-- The stateful loop of `compute_frost_risk_from_cimis` (mathModel.py lines
252-315): one pass over the flattened records, carrying per-station
`prev_temp` / `prev_time` dicts, emitting one enriched record each. -/
noncomputable def frostLoop (delta_orchard_c : ℝ)
    (prev_temp : List (Option String × Option ℚ))
    (prev_time : List (Option String × PyDateTime)) :
    List CimisRow → List FrostRecordOut
  | [] => []
  | r :: rs =>
    let air_temp := r.air_temp_c
    let derived : Option (ℝ × ℝ × ℝ) :=
      match air_temp, r.rel_hum with
      | some a, some h =>
        some (wet_bulb_temperature a h, blossom_temp a h delta_orchard_c,
          dew_point_temperature a h)
      | _, _ => none
    let cooling := coolingRateOut (dictGet prev_temp r.station)
      (dictGet prev_time r.station) r.timestamp air_temp
    let stage_data : List (String × StageOut) :=
      match derived with
      | some (_, bt, _) =>
        ALMOND_LT_CONFIG_stages.map (fun e =>
          (e.1, { lt10_c := e.2.lt10_c, lt90_c := e.2.lt90_c,
                  damage_prob := damageValue bt e.1 }))
      | none => []
    let out : FrostRecordOut :=
      { station := r.station, timestamp := r.timestamp, air_temperature_c := air_temp,
        relative_humidity := r.rel_hum,
        dew_point_c := derived.map (fun x => x.2.2),
        wet_bulb_c := derived.map (fun x => x.1),
        blossom_temp_c := derived.map (fun x => x.2.1),
        cooling_rate_c_per_hr := cooling,
        stages := stage_data }
    out :: frostLoop delta_orchard_c ((r.station, air_temp) :: prev_temp)
      ((r.station, r.timestamp) :: prev_time) rs

/-- Embedding of `compute_frost_risk_from_cimis` (mathModel.py lines
218-315) from the flattened records onward: the upstream CIMIS fetch and
the `cimis_json_to_records` call that produce the record list are the
caller's input here.  The early return on an empty record list coincides
with the loop's value on the empty list. -/
noncomputable def compute_frost_risk_from_cimis (delta_orchard_c : ℝ)
    (records : List CimisRow) : List FrostRecordOut :=
  frostLoop delta_orchard_c [] [] records

/-! ## Concrete fixtures used by the closed theorems below -/

/-- A record whose first air-temperature key is present with an empty
`Value` while the hyphenated fallback key holds the parseable value 5. -/
def c1Rec : CimisFields :=
  [("HlyAirTmp", CimisObj.dict (some CimisVal.empty)),
   ("hly-air-tmp", CimisObj.dict (some (CimisVal.num 5)))]

/-- Two observations of one station carrying the same timestamp (elapsed
time zero) with temperatures 10 then 8. -/
def c4Rows : List CimisRow :=
  [{ station := some "A", date := "2024-01-01", hour := "03",
     timestamp := ⟨2024, 1, 1, 3, 0, 0⟩, air_temp_c := some 10, rel_hum := some 50 },
   { station := some "A", date := "2024-01-01", hour := "04",
     timestamp := ⟨2024, 1, 1, 3, 0, 0⟩, air_temp_c := some 8, rel_hum := some 50 }]

/-- A document with exactly one well-formed hourly record: station "12",
date 2024-01-01, hour code "0300", air temperature 5.00, humidity 80. -/
def c7Doc : RawDoc :=
  { providers := [
      { stationNbr := none,
        records := [
          { station := some "12", date := some "2024-01-01", hour := some "0300",
            fields := [("HlyAirTmp", CimisObj.dict (some (CimisVal.num 5))),
                       ("HlyRelHum", CimisObj.dict (some (CimisVal.num 80)))] } ] } ] }

/-! ## Helper lemmas -/

theorem pyDiv_ok {x y : ℝ} (h : y ≠ 0) : pyDiv x y = Except.ok (x / y) := by
  unfold pyDiv; rw [if_neg h]

theorem pyDiv_zero {x y : ℝ} (h : y = 0) : pyDiv x y = Except.error PyErr.zeroDivision := by
  unfold pyDiv; rw [if_pos h]

theorem pyLog_ok {x : ℝ} (h : 0 < x) : pyLog x = Except.ok (Real.log x) := by
  unfold pyLog; rw [if_neg (not_le.mpr h)]

theorem pySqrt_ok {x : ℝ} (h : 0 ≤ x) : pySqrt x = Except.ok (Real.sqrt x) := by
  unfold pySqrt; rw [if_neg (not_lt.mpr h)]

theorem pyPow_ok {x y : ℝ} (h : 0 ≤ x) : pyPow x y = Except.ok (x ^ y) := by
  unfold pyPow; rw [if_neg (not_lt.mpr h)]

theorem exceptOkBind {ε α β : Type} (a : α) (f : α → Except ε β) :
    (Except.ok a : Except ε α) >>= f = f a := rfl

theorem exceptErrBind {ε α β : Type} (e : ε) (f : α → Except ε β) :
    (Except.error e : Except ε α) >>= f = Except.error e := rfl

/-! ## Claim theorems -/

/-- C2: the claim asserts `damageProbability` stays strictly inside (0, 1)
for every finite temperature without failing, the implementation guarding
the exponential against overflow.  The code has no such guard: at
temperature -500 for stage pinkbud, the exponent `-z = -(a + b * temp)`
passed to `math.exp` is 740, above ln(DBL_MAX) = 709.782..., so Python's
`math.exp` raises `OverflowError` instead of returning a probability. -/
theorem c2_overflow_unguarded :
    get_damage_parameters "pinkbud" = Except.ok (10.0, 1.5) ∧
    -((10.0 : ℚ) + 1.5 * (-500)) = 740 ∧ (709783 / 1000 : ℚ) < 740 := by
  refine ⟨rfl, by norm_num, by norm_num⟩

/-- C5: risk classification of the overall maximum damage probability:
low exactly below 0.3, moderate exactly on [0.3, 0.6), high exactly from
0.6 upward (so 0.3 is moderate and 0.6 is high). -/
theorem c5_risk_classification (p : ℚ) :
    (risk_level_of p = "low" ↔ p < 0.3) ∧
    (risk_level_of p = "moderate" ↔ 0.3 ≤ p ∧ p < 0.6) ∧
    (risk_level_of p = "high" ↔ 0.6 ≤ p) := by
  have hlm : ("low" : String) ≠ "moderate" := by decide
  have hlh : ("low" : String) ≠ "high" := by decide
  have hml : ("moderate" : String) ≠ "low" := by decide
  have hmh : ("moderate" : String) ≠ "high" := by decide
  have hhl : ("high" : String) ≠ "low" := by decide
  have hhm : ("high" : String) ≠ "moderate" := by decide
  unfold risk_level_of
  split_ifs with h1 h2
  · exact ⟨⟨fun _ => h1, fun _ => rfl⟩,
      ⟨fun hc => absurd hc hlm, fun hc => absurd h1 (not_lt.mpr hc.1)⟩,
      ⟨fun hc => absurd hc hlh, fun hc => absurd h1 (not_lt.mpr (by linarith))⟩⟩
  · exact ⟨⟨fun hc => absurd hc hml, fun hc => absurd hc h1⟩,
      ⟨fun _ => ⟨not_lt.mp h1, h2⟩, fun _ => rfl⟩,
      ⟨fun hc => absurd hc hmh, fun hc => absurd h2 (not_lt.mpr hc)⟩⟩
  · exact ⟨⟨fun hc => absurd hc hhl, fun hc => absurd hc h1⟩,
      ⟨fun hc => absurd hc hhm, fun hc => absurd hc.2 h2⟩,
      ⟨fun _ => not_lt.mp h2, fun _ => rfl⟩⟩

/-- C7: normalizing a document holding exactly one well-formed hourly
record (station "12", date 2024-01-01, hour code "0300", air temperature
5.00, humidity 80) yields exactly one observation, whose hour field is the
two-character code "03" — hour 3 — and whose timestamp is
2024-01-01T03:00:00. -/
theorem c7_round_trip :
    cimis_json_to_records c7Doc =
      [{ station := some "12", date := "2024-01-01", hour := "03",
         timestamp := ⟨2024, 1, 1, 3, 0, 0⟩,
         air_temp_c := some 5, rel_hum := some 80 }] ∧
    (PyDateTime.mk 2024 1 1 3 0 0).hour = 3 :=
  ⟨by decide, rfl⟩

/-- C8 counterexample: "PINKBUD" is not one of the five configured
(lowercase) stage names, yet the lookup succeeds instead of raising,
because the code lowercases its argument first. -/
theorem c8_uppercase_accepted_cx :
    "PINKBUD" ∉ stageNames ∧
    get_damage_parameters "PINKBUD" = Except.ok (10.0, 1.5) := by
  exact ⟨by decide, rfl⟩

/-- C8 amended: the damage parameter lookup lowercases the stage name, then
returns the fixed `(a, b)` pair of the matching configured stage, and
signals an error exactly when the lowercased name matches none of the five
— equivalently, it agrees everywhere with lookup in the fixed table keyed
by the lowercased name. -/
theorem c8_lookup_table (stage : String) :
    get_damage_parameters stage = get_damage_parameters_spec stage := by
  unfold get_damage_parameters get_damage_parameters_spec damageTable
  by_cases h1 : pyLower stage = "pinkbud" <;>
    by_cases h2 : pyLower stage = "fullbloom" <;>
      by_cases h3 : pyLower stage = "petalfall" <;>
        by_cases h4 : pyLower stage = "fruitset" <;>
          by_cases h5 : pyLower stage = "smallnut" <;>
            simp [List.find?, h1, h2, h3, h4, h5]

/-- C10: the lookup is case-insensitive in the stage name — whenever the
lowercased name equals a configured name it returns exactly that configured
name's parameters, and it errors exactly when the lowercased name matches
none of the five. -/
theorem c10_case_insensitive (stage : String) :
    (∀ t, t ∈ stageNames → pyLower stage = t →
      get_damage_parameters stage = get_damage_parameters t) ∧
    (pyLower stage ∉ stageNames → ∃ e, get_damage_parameters stage = Except.error e) := by
  constructor
  · intro t ht hlow
    fin_cases ht <;> (unfold get_damage_parameters; rw [hlow]) <;> rfl
  · intro hnot
    have h1 : ¬ pyLower stage = "pinkbud" := by
      intro h; exact hnot (by rw [h]; decide)
    have h2 : ¬ pyLower stage = "fullbloom" := by
      intro h; exact hnot (by rw [h]; decide)
    have h3 : ¬ pyLower stage = "petalfall" := by
      intro h; exact hnot (by rw [h]; decide)
    have h4 : ¬ pyLower stage = "fruitset" := by
      intro h; exact hnot (by rw [h]; decide)
    have h5 : ¬ pyLower stage = "smallnut" := by
      intro h; exact hnot (by rw [h]; decide)
    refine ⟨"Invalid phenological stage: " ++ stage, ?_⟩
    unfold get_damage_parameters
    rw [if_neg h1, if_neg h2, if_neg h3, if_neg h4, if_neg h5]

/-- C10 witness: a mixed-case name resolves to the lowercase stage's
parameters, and a name lowercasing to nothing configured errors. -/
theorem c10_case_insensitive_witness :
    get_damage_parameters "PinkBud" = get_damage_parameters "pinkbud" ∧
    (∃ e, get_damage_parameters "zzz" = Except.error e) :=
  ⟨(c10_case_insensitive "PinkBud").1 "pinkbud" (by decide) (by decide),
   (c10_case_insensitive "zzz").2 (by decide)⟩

/-- C1 counterexample: in `c1Rec` the fallback key "hly-air-tmp" is present
with the non-empty parseable value 5, so the claim requires the extraction
over ["HlyAirTmp", "hly-air-tmp"] to return 5; the code instead returns
null, because the first key is present with an empty `Value` and that stops
the scan without trying the remaining keys. -/
theorem c1_empty_value_cx :
    get_cimis_value c1Rec ["HlyAirTmp", "hly-air-tmp"] = none ∧
    get_cimis_value_claim c1Rec ["HlyAirTmp", "hly-air-tmp"] = some 5 :=
  ⟨rfl, rfl⟩

/-- C1 amended: extraction scans the keys in order, skipping keys that are
absent, not objects, or whose present `Value` is non-empty but unparseable;
it returns the parsed value of the first key holding a parseable `Value`,
but stops with null at the first key present as an object whose `Value` is
empty or missing; null when the scan exhausts the keys. -/
theorem c1_first_decisive_key_scan (rec : CimisFields) (keys : List String) :
    get_cimis_value rec keys = get_cimis_value_amended rec keys := by
  induction keys with
  | nil => rfl
  | cons k ks ih =>
    have hcons : get_cimis_value_amended rec (k :: ks) =
        if decisiveKey rec k then parsedValue rec k
        else get_cimis_value_amended rec ks := by
      unfold get_cimis_value_amended
      by_cases h : decisiveKey rec k
      · simp [List.find?, h]
      · simp [List.find?, h]
    rw [hcons]
    unfold get_cimis_value
    cases hf : fieldGet rec k with
    | none =>
      have hd : decisiveKey rec k = false := by simp [decisiveKey, hf]
      simp [hd, ih]
    | some obj =>
      cases obj with
      | notDict =>
        have hd : decisiveKey rec k = false := by simp [decisiveKey, hf]
        simp [hd, ih]
      | dict v =>
        cases v with
        | none =>
          have hd : decisiveKey rec k = true := by simp [decisiveKey, hf]
          have hp : parsedValue rec k = none := by simp [parsedValue, hf]
          simp [hd, hp]
        | some val =>
          cases val with
          | empty =>
            have hd : decisiveKey rec k = true := by simp [decisiveKey, hf]
            have hp : parsedValue rec k = none := by simp [parsedValue, hf]
            simp [hd, hp]
          | num x =>
            have hd : decisiveKey rec k = true := by simp [decisiveKey, hf]
            have hp : parsedValue rec k = some x := by simp [parsedValue, hf]
            simp [hd, hp]
          | bad =>
            have hd : decisiveKey rec k = false := by simp [decisiveKey, hf]
            simp [hd, ih]

/-- C4 counterexample: two observations of station "A" with identical
timestamps (elapsed time zero) and temperatures 10 then 8: the second
emitted cooling rate is 2, not 0 — the code substitutes the 1.0-hour
default instead of emitting 0.0 when elapsed time is non-positive. -/
theorem c4_zero_elapsed_cx :
    (compute_frost_risk_from_cimis 1 c4Rows).map
      (fun r => r.cooling_rate_c_per_hr) = [0, 2] ∧ (2 : ℚ) ≠ 0 := by
  constructor
  · simp only [compute_frost_risk_from_cimis, frostLoop, c4Rows, dictGet, List.find?,
      coolingRateOut, List.map]
    norm_num
  · norm_num

/-- C4 amended: the emitted cooling rate is exactly 0.0 for the first
record of a station, when the stored previous temperature is null, and
when the current air temperature is null; but when a previous temperature
and a current temperature are both present and the elapsed time is zero or
negative, the elapsed time is replaced by the defensive 1.0-hour default
and the rate is `(previousTemp - currentTemp) / 1.0`, not 0.0. -/
theorem c4_cooling_rate (pt : Option (Option ℚ)) (pti : Option PyDateTime)
    (ts : PyDateTime) (air : Option ℚ) :
    ((pt = none ∨ pt = some none ∨ air = none) → coolingRateOut pt pti ts air = 0) ∧
    (∀ p c tprev, pt = some (some p) → air = some c → pti = some tprev →
      ts.toSeconds ≤ tprev.toSeconds →
      coolingRateOut pt pti ts air = (p - c) / 1) := by
  constructor
  · rintro (h | h | h) <;> subst h
    · rfl
    · rfl
    · cases pt with
      | none => rfl
      | some o =>
        cases o with
        | none => rfl
        | some p => rfl
  · intro p c tprev hp hc hti hle
    subst hp; subst hc; subst hti
    have hstep : coolingRateOut (some (some p)) (some tprev) ts (some c) =
        (p - c) / (if 0 < ((ts.toSeconds : ℚ) - (tprev.toSeconds : ℚ)) / 3600
          then ((ts.toSeconds : ℚ) - (tprev.toSeconds : ℚ)) / 3600 else 1) := rfl
    have hsub : ((ts.toSeconds : ℚ) - (tprev.toSeconds : ℚ)) ≤ 0 := by
      rw [sub_nonpos]
      exact_mod_cast hle
    have hdt : ¬ (0 < ((ts.toSeconds : ℚ) - (tprev.toSeconds : ℚ)) / 3600) := by
      rw [not_lt]
      linarith
    rw [hstep, if_neg hdt]

/-- C4 witness: the first observation of a station gets cooling rate 0, and
a same-timestamp successor with temperatures 10 then 8 gets (10 - 8) / 1. -/
theorem c4_cooling_rate_witness :
    coolingRateOut none none ⟨2024, 1, 1, 3, 0, 0⟩ (some 8) = 0 ∧
    coolingRateOut (some (some 10)) (some ⟨2024, 1, 1, 3, 0, 0⟩) ⟨2024, 1, 1, 3, 0, 0⟩
      (some 8) = (10 - 8) / 1 :=
  ⟨(c4_cooling_rate none none ⟨2024, 1, 1, 3, 0, 0⟩ (some 8)).1 (Or.inl rfl),
   (c4_cooling_rate (some (some 10)) (some ⟨2024, 1, 1, 3, 0, 0⟩) ⟨2024, 1, 1, 3, 0, 0⟩
      (some 8)).2 10 8 ⟨2024, 1, 1, 3, 0, 0⟩ rfl rfl rfl (le_refl _)⟩

/-- Every `(a, b)` pair the damage parameter lookup can return has a
positive slope parameter `b`. -/
theorem damage_b_pos (stage : String) (a b : ℚ)
    (h : get_damage_parameters stage = Except.ok (a, b)) : 0 < b := by
  unfold get_damage_parameters at h
  split_ifs at h
  all_goals first
    | exact Except.noConfusion h
    | (injection h with h'
       injection h' with h1 h2
       rw [← h2]
       norm_num)

/-- C6: for every stage the lookup accepts, the damage probability is
strictly increasing in temperature, since every configured slope parameter
is positive (for an unknown stage `damage_curve` carries no value and the
hypotheses are unsatisfiable). -/
theorem c6_strictly_increasing (stage : String) (t1 t2 p1 p2 : ℝ)
    (h1 : damage_curve t1 stage = Except.ok p1)
    (h2 : damage_curve t2 stage = Except.ok p2)
    (hlt : t1 < t2) : p1 < p2 := by
  cases hp : get_damage_parameters stage with
  | error e =>
    unfold damage_curve at h1
    rw [hp, exceptErrBind] at h1
    exact Except.noConfusion h1
  | ok ab =>
    obtain ⟨a, b⟩ := ab
    have hb : (0 : ℚ) < b := damage_b_pos stage a b hp
    unfold damage_curve at h1 h2
    rw [hp, exceptOkBind] at h1 h2
    injection h1 with e1
    injection h2 with e2
    rw [← e1, ← e2]
    have hbR : (0 : ℝ) < (b : ℝ) := by exact_mod_cast hb
    have hz : (a : ℝ) + (b : ℝ) * t1 < (a : ℝ) + (b : ℝ) * t2 := by nlinarith
    have he : Real.exp (-((a : ℝ) + (b : ℝ) * t2)) < Real.exp (-((a : ℝ) + (b : ℝ) * t1)) :=
      Real.exp_lt_exp.mpr (by linarith)
    have hd2 : (0 : ℝ) < 1 + Real.exp (-((a : ℝ) + (b : ℝ) * t2)) := by positivity
    exact one_div_lt_one_div_of_lt hd2 (by linarith)

/-- C6 witness: for stage pinkbud, temperatures 0 < 1 give probabilities
in strictly increasing order. -/
theorem c6_strictly_increasing_witness :
    ∃ p1 p2 : ℝ, damage_curve 0 "pinkbud" = Except.ok p1 ∧
      damage_curve 1 "pinkbud" = Except.ok p2 ∧ p1 < p2 :=
  ⟨_, _, rfl, rfl, c6_strictly_increasing "pinkbud" 0 1 _ _ rfl rfl (by norm_num)⟩

/-- C9: at 100 percent relative humidity the Magnus formula collapses
exactly to the air temperature, for every temperature above -237.7 (where
the Magnus denominator stays positive). -/
theorem c9_saturated_dew_point (t : ℝ) (ht : -237.7 < t) :
    dew_point_temperature t 100 = t := by
  have hbt : (0 : ℝ) < 237.7 + t := by linarith
  have hbt2 : (237.7 : ℝ) + t ≠ 0 := ne_of_gt hbt
  unfold dew_point_temperature
  rw [if_neg (by norm_num : ¬ (100 : ℝ) ≤ 0)]
  show 237.7 * (17.27 * t / (237.7 + t) + Real.log (100 / 100)) /
      (17.27 - (17.27 * t / (237.7 + t) + Real.log (100 / 100))) = t
  rw [show ((100 : ℝ) / 100) = 1 by norm_num, Real.log_one, add_zero]
  have hag : (17.27 : ℝ) - 17.27 * t / (237.7 + t) = 17.27 * 237.7 / (237.7 + t) := by
    field_simp
    ring
  rw [hag]
  field_simp
  ring

/-- C9 witness: at temperature 0 and humidity 100 the dew point is 0. -/
theorem c9_saturated_dew_point_witness : dew_point_temperature 0 100 = 0 :=
  c9_saturated_dew_point 0 (by norm_num)

/-- C3 counterexample: at air temperature -237.7 the Magnus denominator
`237.7 + temperature_c` is exactly zero, so `dew_point_temperature` raises
`ZeroDivisionError` instead of returning a real number — the three
derivation functions are not total over all real inputs. -/
theorem c3_denominator_zero_cx :
    dew_point_temperature_chk (-237.7) 50 = Except.error PyErr.zeroDivision := by
  unfold dew_point_temperature_chk
  rw [if_neg (by norm_num : ¬ (50 : ℝ) ≤ 0)]
  have h : (237.7 : ℝ) + (-237.7) = 0 := by norm_num
  rw [pyDiv_zero h, exceptErrBind]

/-- C3 amended: `wet_bulb_temperature`, `dew_point_temperature` and
`blossom_temp` are total (return a real, raise nothing) on the physical
domain: air temperature above -237.7 and relative humidity between 0 and
100, for every orchard offset.  Outside it the code can raise: the square
root of `relative_humidity + 8.313659` for humidity below -8.313659, and
the Magnus divisions at temperature -237.7 or where the denominator
`17.27 - gamma` vanishes. -/
theorem c3_total_on_domain (t rh d : ℝ) (ht : -237.7 < t) (h0 : 0 ≤ rh) (h100 : rh ≤ 100) :
    (∃ x, wet_bulb_temperature_chk t rh = Except.ok x) ∧
    (∃ y, dew_point_temperature_chk t rh = Except.ok y) ∧
    (∃ z, blossom_temp_chk t rh d = Except.ok z) := by
  have hs : pySqrt (rh + 8.313659) = Except.ok (Real.sqrt (rh + 8.313659)) :=
    pySqrt_ok (by linarith)
  have hpw : pyPow rh 1.5 = Except.ok (rh ^ (1.5 : ℝ)) := pyPow_ok h0
  have hwb : wet_bulb_temperature_chk t rh = Except.ok
      (t * Real.arctan (0.151977 * Real.sqrt (rh + 8.313659))
        + Real.arctan (t + rh) - Real.arctan (rh - 1.676331)
        + 0.00391838 * rh ^ (1.5 : ℝ) * Real.arctan (0.023101 * rh) - 4.686035) := by
    unfold wet_bulb_temperature_chk
    simp only [hs, hpw, exceptOkBind]
    rfl
  refine ⟨⟨_, hwb⟩, ?_, ⟨_, by unfold blossom_temp_chk; simp only [hwb, exceptOkBind]; rfl⟩⟩
  rcases eq_or_lt_of_le h0 with h | h
  · refine ⟨t, ?_⟩
    unfold dew_point_temperature_chk
    rw [if_pos (by rw [← h])]
  · have hbt : (0 : ℝ) < 237.7 + t := by linarith
    have hq1 : pyDiv (17.27 * t) (237.7 + t) = Except.ok (17.27 * t / (237.7 + t)) :=
      pyDiv_ok (ne_of_gt hbt)
    have hq2 : pyDiv rh 100 = Except.ok (rh / 100) := pyDiv_ok (by norm_num)
    have hl : pyLog (rh / 100) = Except.ok (Real.log (rh / 100)) :=
      pyLog_ok (by positivity)
    have hlog0 : Real.log (rh / 100) ≤ 0 :=
      Real.log_nonpos (by positivity) (by rw [div_le_one (by norm_num)]; exact h100)
    have hq1lt : 17.27 * t / (237.7 + t) < 17.27 := by
      rw [div_lt_iff₀ hbt]
      nlinarith
    have hag : (17.27 : ℝ) - (17.27 * t / (237.7 + t) + Real.log (rh / 100)) ≠ 0 := by
      have hgt : (0 : ℝ) < 17.27 - (17.27 * t / (237.7 + t) + Real.log (rh / 100)) := by
        linarith
      exact ne_of_gt hgt
    refine ⟨237.7 * (17.27 * t / (237.7 + t) + Real.log (rh / 100)) /
      (17.27 - (17.27 * t / (237.7 + t) + Real.log (rh / 100))), ?_⟩
    unfold dew_point_temperature_chk
    rw [if_neg (not_le.mpr h)]
    simp only [hq1, hq2, hl, exceptOkBind]
    exact pyDiv_ok hag

/-- C3 witness: at air temperature 0, humidity 50 and offset 1 all three
derivations return values. -/
theorem c3_total_on_domain_witness :
    (∃ x, wet_bulb_temperature_chk 0 50 = Except.ok x) ∧
    (∃ y, dew_point_temperature_chk 0 50 = Except.ok y) ∧
    (∃ z, blossom_temp_chk 0 50 1 = Except.ok z) :=
  c3_total_on_domain 0 50 1 (by norm_num) (by norm_num) (by norm_num)

end FrostBit
